import Mathlib

/-!
Shallow embedding of the TrueNAS CSI driver's appliance client and operator
validation logic, with proofs of the specification's claims about it.

The Go sources embedded here:
- `operator/internal/controller/validation.go` and `constants.go` (present in
  the repository): URL/credentials validation and the configuration-error
  predicate.
- `pkg/client` (the implementation files `client.go` / `storage.go` are not in
  the repository snapshot; only their tests are): the session state machine,
  error predicates, resource-client helpers and the provisioning flows are
  modelled from the specification, with every behaviour the test files pin
  reproduced exactly.

Go errors are modelled as an inductive type: each `errors.New` sentinel is a
constructor, `RPCError{Code,Message,Data}` and `ConnectionError{Op}` are
structured constructors, and `fmt.Errorf("%w: ...")` wrapping is the `wrap`
constructor.  `errsIs` mirrors `errors.Is`: it walks the wrap chain looking
for the target sentinel.
-/

/-- Go `error` values as they occur in this code base. -/
inductive GoError where
  /-- `client.ErrNotFound` sentinel -/
  | errNotFound
  /-- `client.ErrClosed` sentinel -/
  | errClosed
  /-- `client.ErrAuthFailed` sentinel -/
  | errAuthFailed
  /-- `client.ErrNotConnected` sentinel -/
  | errNotConnected
  /-- `controller.ErrInvalidURL` sentinel -/
  | errInvalidURL
  /-- `controller.ErrSecretNotFound` sentinel -/
  | errSecretNotFound
  /-- `controller.ErrSecretMissingKey` sentinel -/
  | errSecretMissingKey
  /-- `*client.RPCError`: code, message, optional JSON `data` payload
      (carried as its raw string) -/
  | rpc (code : Int) (message : String) (data : Option String)
  /-- `*client.ConnectionError` with its `Op` field (`dial`/`read`/`write`) -/
  | conn (op : String)
  /-- any other error (e.g. `errors.New("some other error")`) -/
  | other (msg : String)
  /-- `fmt.Errorf("%w: <note>", inner)` -/
  | wrap (inner : GoError) (note : String)
deriving DecidableEq, Repr

/-- `errors.Is(e, target)`: `e` equals the target or wraps it. -/
def errsIs (e target : GoError) : Bool :=
  match e with
  | .wrap inner note => (GoError.wrap inner note == target) || errsIs inner target
  | e' => e' == target

/-! ## Operator validation (`operator/internal/controller`)

These definitions are translated from `validation.go` and `constants.go`,
which are present in the repository.  The Kubernetes secret store is embedded
as a list of `(secret name, data keys)` pairs; `client.Get` succeeds exactly
when the name is present. -/

/-- The cluster's secrets, as seen by the controller-runtime client: each
secret's name paired with the keys of its `Data` map. -/
structure SecretStore where
  secrets : List (String × List String)
deriving Repr

/-- Go `strings.HasPrefix(s, pre)`, written on the character lists so it
reduces in the kernel. -/
def strHasPre : List Char → List Char → Bool
  | _, [] => true
  | [], _ :: _ => false
  | c :: cs, d :: ds => c == d && strHasPre cs ds

/-- `Validator.ValidateURL` from `validation.go`: empty URLs and URLs that
start with neither `ws://` nor `wss://` are rejected with a wrapped
`ErrInvalidURL`. -/
def ValidateURL (url : String) : Option GoError :=
  if url = "" then
    some (GoError.wrap .errInvalidURL "URL is empty")
  else if !strHasPre url.data "ws://".data &&
          !strHasPre url.data "wss://".data then
    some (GoError.wrap .errInvalidURL "must start with ws:// or wss://")
  else
    none

/-- `Validator.ValidateCredentials` from `validation.go`: an empty secret
name or a missing secret yields a wrapped `ErrSecretNotFound`; a secret that
exists but has no `api-key` entry in its data yields a wrapped
`ErrSecretMissingKey`. -/
def ValidateCredentials (store : SecretStore) (secretName : String) :
    Option GoError :=
  if secretName = "" then
    some (GoError.wrap .errSecretNotFound "secret name is empty")
  else
    match store.secrets.lookup secretName with
    | none => some (GoError.wrap .errSecretNotFound secretName)
    | some keys =>
      if keys.contains "api-key" then none
      else some (GoError.wrap .errSecretMissingKey secretName)

/-- `IsConfigurationError` from `constants.go`:
`errors.Is(err, ErrSecretMissingKey) || errors.Is(err, ErrInvalidURL)`. -/
def IsConfigurationError (e : GoError) : Bool :=
  errsIs e .errSecretMissingKey || errsIs e .errInvalidURL

theorem errsIs_wrap (inner : GoError) (note : String) (target : GoError) :
    errsIs (.wrap inner note) target =
      ((GoError.wrap inner note == target) || errsIs inner target) := rfl

/-! ## Client error predicates (`pkg/client`)

`client.go` itself is not in the repository snapshot; the predicates below are
modelled from §4.2/§7 of the specification and reproduce exactly the
behaviour pinned by `TestIsNotFoundError` and `TestIsConnectionError` in
`pkg/client/client_test.go`. -/

/-- Does `sub` occur contiguously inside `s`? (Go `strings.Contains`.) -/
def charsContain (s sub : List Char) : Bool :=
  strHasPre s sub ||
    match s with
    | [] => false
    | _ :: rest => charsContain rest sub

/-- Go `strings.Contains(s, sub)`. -/
def strContainsSub (s sub : String) : Bool :=
  charsContain s.data sub.data

/-- ASCII lower-casing of one character (all strings involved are ASCII). -/
def charToLower (c : Char) : Char :=
  if 65 ≤ c.toNat && c.toNat ≤ 90 then Char.ofNat (c.toNat + 32) else c

/-- Go `strings.ToLower` on the ASCII strings the matcher sees. -/
def lowerStr (s : String) : String :=
  String.mk (s.data.map charToLower)

/-- The lower-cased absence markers the not-found matcher scans for
(spec §4.2: `not found`, `does not exist`, `no such`, `instancenotfound`,
`ENOENT`). -/
def notFoundMarkers : List String :=
  ["not found", "does not exist", "no such", "instancenotfound", "enoent"]

/-- Extract the `*RPCError` from an error's wrap chain (`errors.As`). -/
def asRPCError : GoError → Option (Int × String × Option String)
  | .rpc code message data => some (code, message, data)
  | .wrap inner _ => asRPCError inner
  | _ => none

/-- Modelled from the spec: `client.IsNotFoundError` (implementation file
absent from the snapshot).  §4.2: true for the `ErrNotFound` sentinel, for an
`RPCError` with the ENOENT-equivalent code `-6`, or for an `RPCError` whose
message or data contains (case-insensitively) one of the absence markers;
false for `nil` and all other errors.  Matches every case of
`TestIsNotFoundError`. -/
def IsNotFoundError (e : Option GoError) : Bool :=
  match e with
  | none => false
  | some err =>
    errsIs err .errNotFound ||
      match asRPCError err with
      | none => false
      | some (code, message, data) =>
        code == -6 ||
          notFoundMarkers.any (fun m => strContainsSub (lowerStr message) m) ||
          (match data with
           | none => false
           | some d =>
             notFoundMarkers.any (fun m => strContainsSub (lowerStr d) m))

/-- `client.IsConnectionError`: true exactly when the wrap chain holds a
`*ConnectionError` (modelled from the spec, pinned by
`TestIsConnectionError`). -/
def IsConnectionError (e : Option GoError) : Bool :=
  match e with
  | none => false
  | some (.conn _) => true
  | some (.wrap inner _) => IsConnectionError (some inner)
  | some _ => false

/-! ## Client session state machine (`pkg/client`)

Modelled from the spec: §4.3's connection state machine
(`Idle → Connecting → Authenticated → Closing → Closed`), observed between
operations, where the transient `Connecting`/`Closing` states have already
resolved.  The underlying transport connection count is carried explicitly so
that the mock server's `ConnectionCount()` observations are expressible.
Behaviour is pinned by `TestConnect_AlreadyConnected`, `TestConnect_AfterClose`,
`TestClose_NotConnected`, `TestClose_Idempotent` and `TestConnected_States`. -/

/-- Observable session states between operations. -/
inductive SessionState where
  | idle
  | authenticated
  | closed
deriving DecidableEq, Repr

/-- A client: its session state plus the number of underlying transport
connections it has opened so far (the mock server's `ConnectionCount()`). -/
structure ClientM where
  state : SessionState
  connCount : Nat
deriving DecidableEq, Repr

/-- How one `Connect` attempt resolves at the transport/auth layer. -/
inductive ConnectOutcome where
  | ok
  | dialFail
  | authFail
deriving DecidableEq, Repr

/-- `client.New(config)`: a fresh client is idle with no connections. -/
def ClientM.new : ClientM := { state := .idle, connCount := 0 }

/-- Modelled from the spec: `Client.Connect` (implementation file absent).
§4.3: connect on a closed client fails with `ErrClosed` and does nothing;
connect when already authenticated is a no-op returning nil; otherwise the
client dials (incrementing the transport connection count) and either
authenticates, fails the dial (no connection established), or fails
authentication (`ErrAuthFailed`, transport closed again, back to idle). -/
def ClientM.connect (c : ClientM) (o : ConnectOutcome) :
    ClientM × Option GoError :=
  match c.state with
  | .closed => (c, some .errClosed)
  | .authenticated => (c, none)
  | .idle =>
    match o with
    | .ok => ({ state := .authenticated, connCount := c.connCount + 1 }, none)
    | .dialFail => (c, some (.conn "dial"))
    | .authFail =>
      ({ state := .idle, connCount := c.connCount + 1 }, some .errAuthFailed)

/-- Modelled from the spec: `Client.Close` (implementation file absent).
§4.3: any state transitions to `Closed`; `Close` always returns nil and is
idempotent (`TestClose_NotConnected`, `TestClose_Idempotent`). -/
def ClientM.close (c : ClientM) : ClientM × Option GoError :=
  ({ state := .closed, connCount := c.connCount }, none)

/-- `Client.Connected()`: true exactly in the authenticated state. -/
def ClientM.connected (c : ClientM) : Bool :=
  c.state == .authenticated

/-- A sequence of `Connect` calls, threading the client through. -/
def ClientM.connectMany (c : ClientM) : List ConnectOutcome → ClientM
  | [] => c
  | o :: os => ((c.connect o).1).connectMany os

/-! ## Resource-client helpers (`pkg/client/storage.go`, absent from the
snapshot; modelled from the spec and pinned by `storage_test.go`) -/

/-- An iSCSI CHAP auth credential (`iscsi.auth` record). -/
structure ISCSIAuth where
  id : Int
  tag : Int
  user : String
  secret : String
deriving DecidableEq, Repr

/-- Modelled from the spec: `Client.GetNextISCSIAuthTag` (implementation file
absent).  §3 invariant 4: the next CHAP tag is `max(existing tags) + 1`, or 1
when no credentials exist; the helper queries all credentials and folds a
running maximum starting at 0.  Pinned by `TestGetNextISCSIAuthTag_Success`
(`{1,5,3} → 6`) and `TestGetNextISCSIAuthTag_Empty` (`∅ → 1`). -/
def GetNextISCSIAuthTag (auths : List ISCSIAuth) : Int :=
  (auths.foldl (fun acc a => if a.tag > acc then a.tag else acc) 0) + 1

/-! ### Decimal printing and parsing

`storage.go` parses the string form of numeric properties with
`strconv.ParseInt(s, 10, 64)`; the appliance prints the number in decimal.
`natDecDigits`/`natDecString` are the printer (claim side of the round trip);
`parseInt64Model` models the nonnegative-decimal behaviour of
`strconv.ParseInt`, including its 64-bit overflow failure. -/

/-- The decimal digits of `n`, most significant first. -/
def natDecDigits (n : Nat) : List Nat :=
  if h : n < 10 then [n]
  else
    have : n / 10 < n := Nat.div_lt_self (by omega) (by omega)
    natDecDigits (n / 10) ++ [n % 10]

/-- The value denoted by a big-endian digit list. -/
def digitsVal (l : List Nat) : Nat :=
  l.foldl (fun acc d => acc * 10 + d) 0

/-- The character for one decimal digit (out-of-range digits never occur). -/
def decDigitChar (d : Nat) : Char :=
  if d = 0 then '0' else if d = 1 then '1' else if d = 2 then '2'
  else if d = 3 then '3' else if d = 4 then '4' else if d = 5 then '5'
  else if d = 6 then '6' else if d = 7 then '7' else if d = 8 then '8'
  else '9'

/-- The decimal string for `n` (what the appliance sends for the
`{value: "N"}` shape). -/
def natDecString (n : Nat) : String :=
  String.mk ((natDecDigits n).map decDigitChar)

/-- Is `c` an ASCII decimal digit? -/
def isDecDigit (c : Char) : Bool :=
  48 ≤ c.toNat && c.toNat ≤ 57

/-- The digit value of an ASCII digit character. -/
def decDigitVal (c : Char) : Nat :=
  c.toNat - 48

/-- Modelled from the spec: `strconv.ParseInt(s, 10, 64)` on the nonnegative
decimal strings the appliance produces — succeeds on a nonempty all-digit
string whose value fits in a signed 64-bit integer, fails otherwise. -/
def parseInt64Model (s : String) : Option Int :=
  if s.data ≠ [] ∧ s.data.all isDecDigit then
    let v := s.data.foldl (fun acc c => acc * 10 + decDigitVal c) 0
    if v ≤ 9223372036854775807 then some (Int.ofNat v) else none
  else none

/-- JSON values as Go's `encoding/json` delivers them into `map[string]any`:
numbers arrive as `float64` (here: the integer they denote), strings as
`string`, objects as nested maps. -/
inductive JValue where
  | jnum (n : Int)
  | jstr (s : String)
  | jobj (fields : List (String × JValue))
  | jbool (b : Bool)
  | jnull

/-- Modelled from the spec: `getParsedInt64` (implementation file absent).
§4.4: numeric property fields arrive as a raw number, `{parsed: N}`, or
`{value: "N"|N}`; the helper decodes all shapes, returning 0 for anything
else.  Pinned case-by-case by `TestGetParsedInt64`. -/
def getParsedInt64 (m : List (String × JValue)) (key : String) : Int :=
  match m.lookup key with
  | none => 0
  | some (.jnum n) => n
  | some (.jobj fields) =>
    match fields.lookup "parsed" with
    | some (.jnum p) => p
    | _ =>
      match fields.lookup "value" with
      | some (.jnum n) => n
      | some (.jstr s) => (parseInt64Model s).getD 0
      | _ => 0
  | some _ => 0

/-- A Go `any` value stored in a `ZFSProperty.Value` field: `encoding/json`
or the appliance client may deliver a number (`float64`/`int64`/`int` all
denote the same integer here), a string, or nil. -/
inductive GoValue where
  | num (n : Int)
  | str (s : String)
  | null
deriving DecidableEq, Repr

/-- The `ZFSProperty` record: a property value of dynamic type. -/
structure ZFSProperty where
  Value : GoValue
deriving DecidableEq, Repr

/-- Modelled from the spec: `ZFSProperty.GetInt64` (implementation file
absent).  Pinned by `TestZFSProperty_GetInt64`: numeric values are returned
as-is; a *string* value yields 0 (the test `"string value (returns 0)"`), as
does nil. -/
def ZFSProperty.GetInt64 (p : ZFSProperty) : Int :=
  match p.Value with
  | .num n => n
  | _ => 0

/-- `ZFSProperty.GetString`, pinned by `TestZFSProperty_GetString`. -/
def ZFSProperty.GetString (p : ZFSProperty) : String :=
  match p.Value with
  | .str s => s
  | _ => ""

/-! ### Query-then-return-one helpers

Each helper issues one appliance query whose server-side filter selects by
the helper's key, then inspects the returned result set.  The helpers are
embedded as functions of that result set. -/

/-- An NFS share record. -/
structure NFSShare where
  id : Int
  path : String
deriving DecidableEq, Repr

/-- An iSCSI target record. -/
structure ISCSITarget where
  id : Int
  name : String
deriving DecidableEq, Repr

/-- An iSCSI extent record. -/
structure ISCSIExtent where
  id : Int
  name : String
  disk : String
deriving DecidableEq, Repr

/-- An iSCSI target-extent association record. -/
structure ISCSITargetExtent where
  id : Int
  target : Int
  extent : Int
  lunid : Int
deriving DecidableEq, Repr

/-- A snapshot record (`dataset@name`). -/
structure Snapshot where
  id : String
  dataset : String
  name : String
deriving DecidableEq, Repr

/-- Modelled from the spec: `Client.GetNFSShareByPath` (implementation file
absent).  §4.4: on an empty result set it returns the sentinel not-found
error; otherwise the first match.  Pinned by `TestGetNFSShareByPath_Success` /
`_NotFound`. -/
def GetNFSShareByPath (results : List NFSShare) : Except GoError NFSShare :=
  match results with
  | [] => .error (.wrap .errNotFound "NFS share not found")
  | share :: _ => .ok share

/-- Modelled from the spec: `Client.GetISCSITargetByName` (implementation
file absent); sentinel not-found on an empty result set, pinned by
`TestGetISCSITargetByName_NotFound` (`errors.Is(err, ErrNotFound)`). -/
def GetISCSITargetByName (results : List ISCSITarget) :
    Except GoError ISCSITarget :=
  match results with
  | [] => .error (.wrap .errNotFound "iSCSI target not found")
  | target :: _ => .ok target

/-- Modelled from the spec: `Client.GetISCSIExtentByDisk` (implementation
file absent); sentinel not-found on an empty result set, pinned by
`TestGetISCSIExtentByDisk_NotFound`. -/
def GetISCSIExtentByDisk (results : List ISCSIExtent) :
    Except GoError ISCSIExtent :=
  match results with
  | [] => .error (.wrap .errNotFound "iSCSI extent not found")
  | extent :: _ => .ok extent

/-- Modelled from the spec: `Client.GetPool` (implementation file absent);
sentinel not-found on an empty result set, pinned by `TestGetPool_NotFound`
(error message contains `not found`). The pool payload is irrelevant here
and carried as its name. -/
def GetPoolByName (results : List String) : Except GoError String :=
  match results with
  | [] => .error (.wrap .errNotFound "pool not found")
  | pool :: _ => .ok pool

/-- Modelled from the spec: `Client.FindSnapshotByName` (implementation file
absent).  `TestFindSnapshotByName_NotFound` pins the divergent behaviour: an
empty result set yields a nil snapshot and a nil error — not the sentinel. -/
def FindSnapshotByName (results : List Snapshot) :
    Except GoError (Option Snapshot) :=
  match results with
  | [] => .ok none
  | snap :: _ => .ok (some snap)

/-! ### `DeleteISCSITarget` call order

The deletion helper's externally visible behaviour is the sequence of RPC
calls it issues, embedded as a trace. -/

/-- One RPC issued during `DeleteISCSITarget`. -/
inductive TargetDeleteCall where
  /-- `iscsi.targetextent.query` filtered on the target id -/
  | teQuery (targetId : Int)
  /-- `iscsi.targetextent.delete` of one association -/
  | teDelete (assocId : Int)
  /-- `iscsi.target.delete` of the target itself -/
  | targetDelete (targetId : Int)
deriving DecidableEq, Repr

/-- Modelled from the spec: `Client.DeleteISCSITarget` (implementation file
absent).  §3 invariant 2 / `TestDeleteISCSITarget_WithExtents`: it first
queries the target's target-extent associations (one query), deletes each
returned association, and only then deletes the target.  `assocs` is the
appliance's association table; the query's server-side filter selects this
target's rows. -/
def DeleteISCSITarget (targetId : Int) (assocs : List ISCSITargetExtent) :
    List TargetDeleteCall :=
  TargetDeleteCall.teQuery targetId ::
    ((assocs.filter (fun a => a.target == targetId)).map
      (fun a => TargetDeleteCall.teDelete a.id) ++
     [TargetDeleteCall.targetDelete targetId])

/-- Is a trace entry an association delete? -/
def TargetDeleteCall.isTeDelete : TargetDeleteCall → Bool
  | .teDelete _ => true
  | _ => false

/-- Is a trace entry a target-extent query? -/
def TargetDeleteCall.isTeQuery : TargetDeleteCall → Bool
  | .teQuery _ => true
  | _ => false

/-- Is a trace entry the target's own delete? -/
def TargetDeleteCall.isTargetDelete : TargetDeleteCall → Bool
  | .targetDelete _ => true
  | _ => false

/-! ## Volume provisioning flows (`pkg/driver`, absent from the snapshot)

Modelled from the spec: §4.5's Provision-NFS and Provision-iSCSI linear state
machines with best-effort reverse rollback (§7: rollback failures are logged,
never mask the original error; the leaked appliance state is logged with full
identifiers).  The appliance is embedded as the sets (lists) of entity
identifiers it holds; each create/delete RPC's outcome is an oracle input. -/

/-- The appliance's entity tables, by identifier. -/
structure Appliance where
  datasets : List String
  shares : List Int
  extents : List Int
  targets : List Int
  assocs : List Int
deriving Repr

/-- How one rollback delete RPC resolves: success, the entity was already
absent (swallowed, §4.5), or some other error (logged, rollback continues). -/
inductive DelResult where
  | ok
  | notFound
  | err
deriving DecidableEq, Repr

/-- Apply one best-effort rollback delete: on success the entity is removed;
a not-found reply means it is already absent; any other error leaves it in
place and appends its identifier to the leak log. -/
def rollbackDel (r : DelResult) (remove : Appliance → Appliance)
    (idDesc : String) (st : Appliance) (log : List String) :
    Appliance × List String :=
  match r with
  | .ok => (remove st, log)
  | .notFound => (remove st, log)
  | .err => (st, log ++ [idDesc])

/-- Delete a dataset/ZVOL from the appliance model. -/
def Appliance.removeDataset (name : String) (st : Appliance) : Appliance :=
  { st with datasets := st.datasets.filter (fun d => d != name) }

/-- Delete an NFS share from the appliance model. -/
def Appliance.removeShare (id : Int) (st : Appliance) : Appliance :=
  { st with shares := st.shares.filter (fun s => s != id) }

/-- Delete an iSCSI extent from the appliance model. -/
def Appliance.removeExtent (id : Int) (st : Appliance) : Appliance :=
  { st with extents := st.extents.filter (fun e => e != id) }

/-- Delete an iSCSI target from the appliance model. -/
def Appliance.removeTarget (id : Int) (st : Appliance) : Appliance :=
  { st with targets := st.targets.filter (fun t => t != id) }

/-- Outcome of a provisioning flow: the appliance post-state, the returned
volume handle when the flow succeeded, and the logged leaked identifiers. -/
structure ProvResult where
  appliance : Appliance
  handle : Option String
  leaked : List String
deriving Repr

/-- RPC outcomes for one Provision-NFS run: whether each create succeeds and
how the (only) rollback delete resolves. -/
structure ProvNFSOracle where
  createDataset : Bool
  createShare : Bool
  delDataset : DelResult
deriving DecidableEq, Repr

/-- Identifiers the NFS flow assigns/receives for its two entities. -/
structure NFSIds where
  dataset : String
  shareId : Int
deriving DecidableEq, Repr

/-- Modelled from the spec: Provision-NFS (§4.5).  Step 1 creates the
dataset, step 2 the NFS share; on a step-2 failure the dataset is rolled
back best-effort before the error is surfaced; on success the handle is
returned. -/
def provisionNFS (st : Appliance) (o : ProvNFSOracle) (ids : NFSIds) :
    ProvResult :=
  if !o.createDataset then
    { appliance := st, handle := none, leaked := [] }
  else
    let st1 := { st with datasets := ids.dataset :: st.datasets }
    if !o.createShare then
      let (st2, log) := rollbackDel o.delDataset
        (Appliance.removeDataset ids.dataset) ids.dataset st1 []
      { appliance := st2, handle := none, leaked := log }
    else
      { appliance := { st1 with shares := ids.shareId :: st1.shares },
        handle := some ("nfs:" ++ ids.dataset),
        leaked := [] }

/-- RPC outcomes for one Provision-iSCSI run: whether each of the four
creates succeeds, and how each rollback delete resolves when reached. -/
structure ProvISCSIOracle where
  createZvol : Bool
  createExtent : Bool
  createTarget : Bool
  createAssoc : Bool
  delTarget : DelResult
  delExtent : DelResult
  delZvol : DelResult
deriving DecidableEq, Repr

/-- Identifiers the iSCSI flow assigns/receives for its four entities. -/
structure ISCSIIds where
  zvol : String
  extentId : Int
  targetId : Int
  assocId : Int
deriving DecidableEq, Repr

/-- The leak-log entry for an extent id. -/
def extentDesc (id : Int) : String := "extent " ++ toString id

/-- The leak-log entry for a target id. -/
def targetDesc (id : Int) : String := "target " ++ toString id

/-- Modelled from the spec: Provision-iSCSI (§4.5).  Steps: create the ZVOL,
the extent, the target, and the target-extent association; a failure at step
k unwinds steps 1..k-1 in reverse, best-effort (not-found swallowed, other
rollback errors logged without masking the original error). -/
def provisionISCSI (st : Appliance) (o : ProvISCSIOracle) (ids : ISCSIIds) :
    ProvResult :=
  if !o.createZvol then
    { appliance := st, handle := none, leaked := [] }
  else
    let st1 := { st with datasets := ids.zvol :: st.datasets }
    if !o.createExtent then
      let (s, log) := rollbackDel o.delZvol
        (Appliance.removeDataset ids.zvol) ids.zvol st1 []
      { appliance := s, handle := none, leaked := log }
    else
      let st2 := { st1 with extents := ids.extentId :: st1.extents }
      if !o.createTarget then
        let (sa, la) := rollbackDel o.delExtent
          (Appliance.removeExtent ids.extentId) (extentDesc ids.extentId) st2 []
        let (sb, lb) := rollbackDel o.delZvol
          (Appliance.removeDataset ids.zvol) ids.zvol sa la
        { appliance := sb, handle := none, leaked := lb }
      else
        let st3 := { st2 with targets := ids.targetId :: st2.targets }
        if !o.createAssoc then
          let (sa, la) := rollbackDel o.delTarget
            (Appliance.removeTarget ids.targetId) (targetDesc ids.targetId)
            st3 []
          let (sb, lb) := rollbackDel o.delExtent
            (Appliance.removeExtent ids.extentId) (extentDesc ids.extentId)
            sa la
          let (sc, lc) := rollbackDel o.delZvol
            (Appliance.removeDataset ids.zvol) ids.zvol sb lb
          { appliance := sc, handle := none, leaked := lc }
        else
          { appliance := { st3 with assocs := ids.assocId :: st3.assocs },
            handle := some ("iscsi:" ++ ids.zvol),
            leaked := [] }

/-! # Claims -/

/-- **C8.** An empty URL and a URL starting with neither `ws://` nor `wss://`
are rejected by `ValidateURL` with an error matching `ErrInvalidURL`; a
credentials secret that exists but lacks the `api-key` key is rejected by
`ValidateCredentials` with an error matching `ErrSecretMissingKey`; and
`IsConfigurationError` holds for each such error, so the reconciler treats
them as permanent (terminal). -/
theorem validation_rejects_config_errors_as_permanent :
    (∃ e, ValidateURL "" = some e ∧ errsIs e .errInvalidURL = true ∧
      IsConfigurationError e = true) ∧
    (∀ url : String, strHasPre url.data "ws://".data = false →
      strHasPre url.data "wss://".data = false →
      ∃ e, ValidateURL url = some e ∧ errsIs e .errInvalidURL = true ∧
        IsConfigurationError e = true) ∧
    (∀ (store : SecretStore) (name : String) (keys : List String),
      name ≠ "" → store.secrets.lookup name = some keys →
      keys.contains "api-key" = false →
      ∃ e, ValidateCredentials store name = some e ∧
        errsIs e .errSecretMissingKey = true ∧
        IsConfigurationError e = true) := by
  refine ⟨⟨GoError.wrap .errInvalidURL "URL is empty", by simp [ValidateURL],
    rfl, rfl⟩, ?_, ?_⟩
  · intro url h1 h2
    by_cases hu : url = ""
    · exact ⟨GoError.wrap .errInvalidURL "URL is empty",
        by simp [ValidateURL, hu], rfl, rfl⟩
    · exact ⟨GoError.wrap .errInvalidURL "must start with ws:// or wss://",
        by simp [ValidateURL, hu, h1, h2], rfl, rfl⟩
  · intro store name keys hn hl hk
    refine ⟨GoError.wrap .errSecretMissingKey name, ?_, rfl, rfl⟩
    simp only [ValidateCredentials, hn, hl, hk]
    simp

/-- C8 witness: the three rejections at concrete inputs
(`http://invalid.example.com` from the controller test; a secret holding
only an unrelated key). -/
theorem validation_rejects_config_errors_as_permanent_witness :
    (∃ e, ValidateURL "http://invalid.example.com" = some e ∧
      errsIs e .errInvalidURL = true ∧ IsConfigurationError e = true) ∧
    (∃ e, ValidateCredentials ⟨[("truenas-creds", ["password"])]⟩
        "truenas-creds" = some e ∧
      errsIs e .errSecretMissingKey = true ∧
      IsConfigurationError e = true) :=
  ⟨validation_rejects_config_errors_as_permanent.2.1
      "http://invalid.example.com" (by decide) (by decide),
   validation_rejects_config_errors_as_permanent.2.2
      ⟨[("truenas-creds", ["password"])]⟩ "truenas-creds" ["password"]
      (by decide) (by decide) (by decide)⟩

/-- **C10.** `IsConfigurationError` holds exactly for errors wrapping
`ErrInvalidURL` or `ErrSecretMissingKey`; in particular it is false for
`ErrSecretNotFound`, and a missing credentials secret produces an
`ErrSecretNotFound` error that is classified transient (retried), not
permanent. -/
theorem config_error_iff_invalid_url_or_missing_key :
    (∀ e : GoError, IsConfigurationError e = true ↔
      (errsIs e .errInvalidURL = true ∨ errsIs e .errSecretMissingKey = true)) ∧
    IsConfigurationError .errSecretNotFound = false ∧
    (∀ (store : SecretStore) (name : String),
      store.secrets.lookup name = none →
      ∃ e, ValidateCredentials store name = some e ∧
        errsIs e .errSecretNotFound = true ∧
        IsConfigurationError e = false) := by
  refine ⟨?_, rfl, ?_⟩
  · intro e
    simp [IsConfigurationError, Bool.or_eq_true, or_comm]
  · intro store name hl
    by_cases hn : name = ""
    · exact ⟨GoError.wrap .errSecretNotFound "secret name is empty",
        by simp [ValidateCredentials, hn], rfl, rfl⟩
    · exact ⟨GoError.wrap .errSecretNotFound name,
        by simp [ValidateCredentials, hn, hl], rfl, rfl⟩

/-- C10 witness: the classification at the three sentinels and at a store
without the requested secret. -/
theorem config_error_iff_invalid_url_or_missing_key_witness :
    (IsConfigurationError .errInvalidURL = true ↔
      (errsIs .errInvalidURL .errInvalidURL = true ∨
       errsIs .errInvalidURL .errSecretMissingKey = true)) ∧
    (∃ e, ValidateCredentials ⟨[]⟩ "absent-secret" = some e ∧
      errsIs e .errSecretNotFound = true ∧
      IsConfigurationError e = false) :=
  ⟨config_error_iff_invalid_url_or_missing_key.1 .errInvalidURL,
   config_error_iff_invalid_url_or_missing_key.2.2 ⟨[]⟩ "absent-secret"
     (by decide)⟩

/-- `Connect` on an authenticated client changes nothing and returns nil. -/
theorem connect_authenticated_noop (c : ClientM)
    (h : c.state = .authenticated) (o : ConnectOutcome) :
    c.connect o = (c, none) := by
  unfold ClientM.connect
  rw [h]

/-- Any sequence of `Connect` calls on an authenticated client leaves it
unchanged. -/
theorem connectMany_authenticated (os : List ConnectOutcome) :
    ∀ (c : ClientM), c.state = .authenticated → c.connectMany os = c := by
  induction os with
  | nil => intro c _; rfl
  | cons o os ih =>
    intro c h
    show ((c.connect o).1).connectMany os = c
    rw [connect_authenticated_noop c h o]
    exact ih c h

/-- **C5.** Once a client is authenticated, every further `Connect` is a
no-op returning nil and leaving `Connected()` true; and for a fresh client
whose first `Connect` succeeded, any number of further `Connect` calls
leaves the underlying transport connection count at exactly 1. -/
theorem connect_idempotent_single_connection (c : ClientM)
    (h : c.state = .authenticated) :
    (∀ o, c.connect o = (c, none) ∧ ((c.connect o).1).connected = true) ∧
    (∀ os : List ConnectOutcome, c.connectMany os = c ∧
      (c.connectMany os).connCount = c.connCount) ∧
    (∀ os : List ConnectOutcome,
      ((ClientM.new.connect .ok).1.connectMany os).connCount = 1) := by
  refine ⟨fun o => ⟨connect_authenticated_noop c h o, ?_⟩, fun os => ?_, fun os => ?_⟩
  · rw [connect_authenticated_noop c h o]
    simp [ClientM.connected, h]
  · rw [connectMany_authenticated os c h]
    exact ⟨rfl, rfl⟩
  · rw [connectMany_authenticated os (ClientM.new.connect .ok).1 rfl]
    rfl

/-- C5 witness: a client authenticated with one connection, reconnected
twice. -/
theorem connect_idempotent_single_connection_witness :
    ClientM.connect ⟨.authenticated, 1⟩ .ok = (⟨.authenticated, 1⟩, none) ∧
    ((ClientM.new.connect .ok).1.connectMany [.ok, .ok]).connCount = 1 :=
  ⟨((connect_idempotent_single_connection ⟨.authenticated, 1⟩ rfl).1 .ok).1,
   (connect_idempotent_single_connection ⟨.authenticated, 1⟩ rfl).2.2
     [.ok, .ok]⟩

/-- **C6.** From any state, `Close` returns nil and afterwards `Connected()`
is false, every `Connect` fails with the `ErrClosed` sentinel without
changing the client, and every further `Close` again returns nil leaving the
client closed (Close is idempotent and absorbing). -/
theorem close_absorbing (c : ClientM) :
    (c.close).2 = none ∧
    ((c.close).1).connected = false ∧
    (∀ o, ((c.close).1).connect o = ((c.close).1, some .errClosed)) ∧
    ((c.close).1).close = ((c.close).1, none) := by
  exact ⟨rfl, rfl, fun o => rfl, rfl⟩

/-- Filtering a mapped list with a predicate that rejects every image gives
the empty list. -/
theorem filter_map_none {α β : Type} (f : α → β) (p : β → Bool)
    (h : ∀ a, p (f a) = false) : ∀ l : List α, (l.map f).filter p = [] := by
  intro l
  induction l with
  | nil => rfl
  | cons a l ih => simp [List.filter, h a, ih]

/-- Filtering a mapped list with a predicate that accepts every image keeps
it whole. -/
theorem filter_map_all {α β : Type} (f : α → β) (p : β → Bool)
    (h : ∀ a, p (f a) = true) : ∀ l : List α, (l.map f).filter p = l.map f := by
  intro l
  induction l with
  | nil => rfl
  | cons a l ih => simp [List.filter, h a, ih]

/-- **C9.** `DeleteISCSITarget` removes constituents in reverse dependency
order: its RPC trace starts with exactly one association query, deletes one
association per matching row of the appliance's association table, and ends
with the single target delete — so the target delete is never issued before
all its association deletes. -/
theorem delete_target_reverse_dependency_order (targetId : Int)
    (assocs : List ISCSITargetExtent) :
    (DeleteISCSITarget targetId assocs).head? = some (.teQuery targetId) ∧
    (DeleteISCSITarget targetId assocs).filter TargetDeleteCall.isTeQuery =
      [.teQuery targetId] ∧
    ((DeleteISCSITarget targetId assocs).filter
      TargetDeleteCall.isTeDelete).length =
      (assocs.filter (fun a => a.target == targetId)).length ∧
    (DeleteISCSITarget targetId assocs).filter
      TargetDeleteCall.isTargetDelete = [.targetDelete targetId] ∧
    (DeleteISCSITarget targetId assocs).getLast? =
      some (.targetDelete targetId) := by
  have hq : ((assocs.filter (fun a => a.target == targetId)).map
      (fun a => TargetDeleteCall.teDelete a.id)).filter
        TargetDeleteCall.isTeQuery = [] :=
    filter_map_none _ _ (fun a => rfl) _
  have hd : ((assocs.filter (fun a => a.target == targetId)).map
      (fun a => TargetDeleteCall.teDelete a.id)).filter
        TargetDeleteCall.isTeDelete =
      (assocs.filter (fun a => a.target == targetId)).map
        (fun a => TargetDeleteCall.teDelete a.id) :=
    filter_map_all _ _ (fun a => rfl) _
  have ht : ((assocs.filter (fun a => a.target == targetId)).map
      (fun a => TargetDeleteCall.teDelete a.id)).filter
        TargetDeleteCall.isTargetDelete = [] :=
    filter_map_none _ _ (fun a => rfl) _
  refine ⟨rfl, ?_, ?_, ?_, ?_⟩
  · simp only [DeleteISCSITarget, List.filter_cons, List.filter_append, hq]
    simp [TargetDeleteCall.isTeQuery, List.filter]
  · simp only [DeleteISCSITarget, List.filter_cons, List.filter_append, hd]
    simp [TargetDeleteCall.isTeDelete, List.filter]
  · simp only [DeleteISCSITarget, List.filter_cons, List.filter_append, ht]
    simp [TargetDeleteCall.isTargetDelete, List.filter]
  · show (TargetDeleteCall.teQuery targetId ::
      ((assocs.filter (fun a => a.target == targetId)).map
        (fun a => TargetDeleteCall.teDelete a.id) ++
       [TargetDeleteCall.targetDelete targetId])).getLast? = _
    rw [← List.cons_append, List.getLast?_concat]

/-- C9 witness: the trace for target 5 with the two associations of
`TestDeleteISCSITarget_WithExtents`. -/
theorem delete_target_reverse_dependency_order_witness :
    (DeleteISCSITarget 5 [⟨1, 5, 10, 0⟩, ⟨2, 5, 11, 1⟩]).getLast? =
      some (.targetDelete 5) ∧
    ((DeleteISCSITarget 5 [⟨1, 5, 10, 0⟩, ⟨2, 5, 11, 1⟩]).filter
      TargetDeleteCall.isTeDelete).length =
      (([⟨1, 5, 10, 0⟩, ⟨2, 5, 11, 1⟩] : List ISCSITargetExtent).filter
        (fun a => a.target == 5)).length :=
  ⟨(delete_target_reverse_dependency_order 5 _).2.2.2.2,
   (delete_target_reverse_dependency_order 5 _).2.2.1⟩

/-- C7 counterexample: `FindSnapshotByName` on an empty result set returns a
nil snapshot and a nil error — not the sentinel not-found error the claim
asserts (pinned by `TestFindSnapshotByName_NotFound`). -/
theorem find_snapshot_empty_returns_no_error :
    FindSnapshotByName [] = .ok none ∧
    ¬ ∃ e : GoError, FindSnapshotByName [] = .error e :=
  ⟨rfl, fun ⟨_, h⟩ => by simp [FindSnapshotByName] at h⟩

/-- **C7 (amended).** Every query-then-return-one helper except
`FindSnapshotByName` returns the sentinel not-found error on an empty result
set and the first match otherwise; `FindSnapshotByName` instead returns a
nil snapshot with a nil error on an empty result set. -/
theorem query_one_helpers_not_found :
    (∃ e, GetNFSShareByPath [] = .error e ∧ errsIs e .errNotFound = true) ∧
    (∃ e, GetISCSITargetByName [] = .error e ∧
      errsIs e .errNotFound = true) ∧
    (∃ e, GetISCSIExtentByDisk [] = .error e ∧
      errsIs e .errNotFound = true) ∧
    (∃ e, GetPoolByName [] = .error e ∧ errsIs e .errNotFound = true) ∧
    FindSnapshotByName [] = .ok none ∧
    (∀ (s : NFSShare) rest, GetNFSShareByPath (s :: rest) = .ok s) ∧
    (∀ (t : ISCSITarget) rest, GetISCSITargetByName (t :: rest) = .ok t) ∧
    (∀ (x : ISCSIExtent) rest, GetISCSIExtentByDisk (x :: rest) = .ok x) ∧
    (∀ (s : Snapshot) rest, FindSnapshotByName (s :: rest) = .ok (some s)) :=
  ⟨⟨_, rfl, rfl⟩, ⟨_, rfl, rfl⟩, ⟨_, rfl, rfl⟩, ⟨_, rfl, rfl⟩, rfl,
   fun _ _ => rfl, fun _ _ => rfl, fun _ _ => rfl, fun _ _ => rfl⟩

/-- The auth-tag fold never drops below its initial accumulator. -/
theorem tagFold_ge_init (l : List ISCSIAuth) :
    ∀ init : Int,
      init ≤ l.foldl (fun acc a => if a.tag > acc then a.tag else acc) init := by
  induction l with
  | nil => intro init; exact le_refl init
  | cons b l ih =>
    intro init
    refine le_trans ?_ (ih (if b.tag > init then b.tag else init))
    split <;> omega

/-- The auth-tag fold dominates every tag in the list. -/
theorem tagFold_ge_mem (l : List ISCSIAuth) :
    ∀ (init : Int) (a : ISCSIAuth), a ∈ l →
      a.tag ≤ l.foldl (fun acc x => if x.tag > acc then x.tag else acc) init := by
  induction l with
  | nil => intro _ a ha; cases ha
  | cons b l ih =>
    intro init a ha
    rcases List.mem_cons.mp ha with h | h
    · subst h
      refine le_trans ?_ (tagFold_ge_init l (if a.tag > init then a.tag else init))
      split <;> omega
    · exact ih _ a h

/-- The auth-tag fold yields its initial accumulator or a tag from the
list. -/
theorem tagFold_mem_or_init (l : List ISCSIAuth) :
    ∀ init : Int,
      l.foldl (fun acc a => if a.tag > acc then a.tag else acc) init = init ∨
      l.foldl (fun acc a => if a.tag > acc then a.tag else acc) init ∈
        l.map (fun a => a.tag) := by
  induction l with
  | nil => intro init; exact Or.inl rfl
  | cons b l ih =>
    intro init
    rw [List.foldl_cons]
    rcases ih (if b.tag > init then b.tag else init) with h | h
    · rw [h]
      by_cases hb : b.tag > init
      · right
        rw [if_pos hb, List.map_cons]
        exact List.mem_cons_self _ _
      · left
        exact if_neg hb
    · right
      exact List.mem_cons_of_mem _ h

/-- **C2.** For a set of existing CHAP credentials all of whose tags are
positive, `GetNextISCSIAuthTag` returns 1 when the set is empty, and
otherwise returns `m + 1` where `m` is the greatest tag in the set (so gaps
in the tag sequence are not reused). -/
theorem next_auth_tag_is_max_plus_one (auths : List ISCSIAuth)
    (hpos : ∀ a ∈ auths, 0 < a.tag) :
    (auths = [] → GetNextISCSIAuthTag auths = 1) ∧
    (auths ≠ [] →
      (GetNextISCSIAuthTag auths - 1) ∈ auths.map (fun a => a.tag) ∧
      ∀ a ∈ auths, a.tag ≤ GetNextISCSIAuthTag auths - 1) := by
  constructor
  · intro h; subst h; rfl
  · intro hne
    have hmem := tagFold_mem_or_init auths 0
    have hge := fun a ha => tagFold_ge_mem auths 0 a ha
    constructor
    · rcases hmem with h | h
      · rcases List.exists_mem_of_ne_nil auths hne with ⟨a, ha⟩
        have h1 := hge a ha
        have h2 := hpos a ha
        rw [h] at h1
        omega
      · unfold GetNextISCSIAuthTag
        have : ∀ x : Int, x + 1 - 1 = x := fun x => by omega
        rw [this]
        exact h
    · intro a ha
      have := hge a ha
      unfold GetNextISCSIAuthTag
      omega

/-- C2 witness: the gapped tag set `{1,5,3}` of
`TestGetNextISCSIAuthTag_Success` and the empty set of
`TestGetNextISCSIAuthTag_Empty`. -/
theorem next_auth_tag_is_max_plus_one_witness :
    GetNextISCSIAuthTag [] = 1 ∧
    (GetNextISCSIAuthTag
        [⟨1, 1, "user1", "secret1xxxxx"⟩, ⟨2, 5, "user5", "secret5xxxxx"⟩,
         ⟨3, 3, "user3", "secret3xxxxx"⟩] - 1) ∈
      ([⟨1, 1, "user1", "secret1xxxxx"⟩, ⟨2, 5, "user5", "secret5xxxxx"⟩,
        ⟨3, 3, "user3", "secret3xxxxx"⟩] : List ISCSIAuth).map
        (fun a => a.tag) :=
  ⟨(next_auth_tag_is_max_plus_one [] (by simp)).1 rfl,
   ((next_auth_tag_is_max_plus_one
      [⟨1, 1, "user1", "secret1xxxxx"⟩, ⟨2, 5, "user5", "secret5xxxxx"⟩,
       ⟨3, 3, "user3", "secret3xxxxx"⟩]
      (by intro a ha; fin_cases ha <;> decide)).2 (by simp)).1⟩

/-- **C4.** `IsNotFoundError e` holds iff `e` is (or wraps) the `ErrNotFound`
sentinel, or carries an `RPCError` whose code is `-6` or whose message or
data contains (case-insensitively) one of the absence markers; in
particular it is false for nil, for RPC errors with unrelated code and
message, and for other error types — pinned by every row of
`TestIsNotFoundError`. -/
theorem is_not_found_error_characterization :
    (∀ e : Option GoError, IsNotFoundError e = true ↔
      ∃ err, e = some err ∧
        (errsIs err .errNotFound = true ∨
         ∃ code msg data, asRPCError err = some (code, msg, data) ∧
           (code = -6 ∨
            (∃ m ∈ notFoundMarkers,
              strContainsSub (lowerStr msg) m = true) ∨
            (∃ d, data = some d ∧ ∃ m ∈ notFoundMarkers,
              strContainsSub (lowerStr d) m = true)))) ∧
    IsNotFoundError none = false ∧
    IsNotFoundError (some .errNotFound) = true ∧
    IsNotFoundError (some (.rpc (-6) "some error" none)) = true ∧
    IsNotFoundError (some (.rpc 0 "Resource not found" none)) = true ∧
    IsNotFoundError (some (.rpc 0 "Dataset does not exist" none)) = true ∧
    IsNotFoundError (some (.rpc 0 "No such file or directory" none)) = true ∧
    IsNotFoundError
      (some (.rpc 0 "validation error" (some "instancenotfound"))) = true ∧
    IsNotFoundError (some (.rpc 0 "error" (some "ENOENT: no such"))) = true ∧
    IsNotFoundError (some (.rpc (-1) "Internal server error" none)) = false ∧
    IsNotFoundError (some (.other "some other error")) = false := by
  refine ⟨?_, rfl, by decide, by decide, by decide, by decide, by decide,
    by decide, by decide, by decide, by decide⟩
  intro e
  cases e with
  | none => simp [IsNotFoundError]
  | some err =>
    rcases hr : asRPCError err with _ | ⟨code, msg, data⟩
    · simp [IsNotFoundError, hr]
    · cases data with
      | none => simp [IsNotFoundError, hr, List.any_eq_true, and_assoc]
      | some d =>
        simp [IsNotFoundError, hr, List.any_eq_true, and_assoc, or_assoc]

/-- `natDecDigits` never produces the empty list. -/
theorem natDecDigits_ne_nil (n : Nat) : natDecDigits n ≠ [] := by
  rw [natDecDigits]
  split
  · simp
  · simp

/-- Every digit produced by `natDecDigits` is below 10. -/
theorem natDecDigits_lt (n : Nat) : ∀ d ∈ natDecDigits n, d < 10 := by
  induction n using Nat.strong_induction_on with
  | _ n ih =>
    rw [natDecDigits]
    split
    · intro d hd
      simp at hd
      omega
    · intro d hd
      rcases List.mem_append.mp hd with h | h
      · exact ih (n / 10) (Nat.div_lt_self (by omega) (by omega)) d h
      · simp at h
        omega

/-- Reading the digits of `n` back as a number gives `n`. -/
theorem digitsVal_natDecDigits (n : Nat) : digitsVal (natDecDigits n) = n := by
  induction n using Nat.strong_induction_on with
  | _ n ih =>
    rw [natDecDigits]
    split
    · simp [digitsVal]
    · rw [show digitsVal (natDecDigits (n / 10) ++ [n % 10]) =
          digitsVal (natDecDigits (n / 10)) * 10 + n % 10 by
        simp [digitsVal, List.foldl_append]]
      rw [ih (n / 10) (Nat.div_lt_self (by omega) (by omega))]
      omega

/-- `decDigitChar` always yields an ASCII digit. -/
theorem isDecDigit_decDigitChar (d : Nat) :
    isDecDigit (decDigitChar d) = true := by
  unfold decDigitChar
  repeat' split
  all_goals rfl

/-- `decDigitVal` inverts `decDigitChar` on digits. -/
theorem decDigitVal_decDigitChar (d : Nat) (h : d < 10) :
    decDigitVal (decDigitChar d) = d := by
  unfold decDigitChar
  interval_cases d <;> rfl

/-- Folding the parse step over printed digits equals folding the digit
values, for digit lists. -/
theorem foldl_parse_map (l : List Nat) (h : ∀ d ∈ l, d < 10) :
    ∀ init : Nat,
      (l.map decDigitChar).foldl (fun acc c => acc * 10 + decDigitVal c)
        init =
      l.foldl (fun acc d => acc * 10 + d) init := by
  induction l with
  | nil => intro _; rfl
  | cons d l ih =>
    intro init
    rw [List.map_cons, List.foldl_cons, List.foldl_cons,
      decDigitVal_decDigitChar d (h d (List.mem_cons_self _ _))]
    exact ih (fun x hx => h x (List.mem_cons_of_mem _ hx)) _

/-- The printer/parser round trip: `strconv.ParseInt` recovers `n` from its
decimal string whenever `n` fits in a signed 64-bit integer. -/
theorem parseInt64Model_natDecString (n : Nat)
    (h : n ≤ 9223372036854775807) :
    parseInt64Model (natDecString n) = some (Int.ofNat n) := by
  have hdata : (natDecString n).data = (natDecDigits n).map decDigitChar := rfl
  have hne : (natDecDigits n).map decDigitChar ≠ [] := by
    intro hc
    exact natDecDigits_ne_nil n (List.map_eq_nil_iff.mp hc)
  have hall : ((natDecDigits n).map decDigitChar).all isDecDigit = true := by
    rw [List.all_eq_true]
    intro c hc
    rcases List.mem_map.mp hc with ⟨d, _, rfl⟩
    exact isDecDigit_decDigitChar d
  have hval : ((natDecDigits n).map decDigitChar).foldl
      (fun acc c => acc * 10 + decDigitVal c) 0 = n := by
    rw [foldl_parse_map (natDecDigits n) (natDecDigits_lt n) 0]
    exact digitsVal_natDecDigits n
  unfold parseInt64Model
  rw [hdata]
  rw [if_pos ⟨hne, hall⟩]
  simp only [hval]
  rw [if_pos h]

/-- The claim as stated: every numeric-property decode path — the four
`getParsedInt64` shapes *and* the `ZFSProperty` decode used for
available/allocated properties — returns `N`, uniformly, for every
nonnegative 64-bit `N`. -/
def decodeUniformityClaim : Prop :=
  ∀ N : Nat, N ≤ 9223372036854775807 →
    getParsedInt64 [("k", .jnum (Int.ofNat N))] "k" = Int.ofNat N ∧
    getParsedInt64 [("k", .jobj [("parsed", .jnum (Int.ofNat N))])] "k" =
      Int.ofNat N ∧
    getParsedInt64 [("k", .jobj [("value", .jnum (Int.ofNat N))])] "k" =
      Int.ofNat N ∧
    getParsedInt64 [("k", .jobj [("value", .jstr (natDecString N))])] "k" =
      Int.ofNat N ∧
    ZFSProperty.GetInt64 ⟨.num (Int.ofNat N)⟩ = Int.ofNat N ∧
    ZFSProperty.GetInt64 ⟨.str (natDecString N)⟩ = Int.ofNat N

/-- C3 counterexample: decoding is not uniform across all the numeric
property decode paths — `ZFSProperty.GetInt64` returns 0, not 22222, for
the string shape `{value: "22222"}` (pinned by `TestZFSProperty_GetInt64`,
case `"string value (returns 0)"`). -/
theorem decode_uniformity_fails_for_property_strings :
    ¬ decodeUniformityClaim := by
  intro h
  have hc := (h 22222 (by norm_num)).2.2.2.2.2
  rw [show ZFSProperty.GetInt64 ⟨.str (natDecString 22222)⟩ = 0 from rfl]
    at hc
  exact absurd hc (by decide)

/-- **C3 (amended).** For every nonnegative `N` representable in 64 bits,
`getParsedInt64` returns `N` for all four appliance shapes (raw number,
`{parsed: N}`, `{value: N}`, `{value: "N"}`); the `ZFSProperty.GetInt64`
decoder returns `N` for numeric values but 0 — not `N` — for the string
shape, so the uniformity does not extend to it. -/
theorem numeric_decoder_shapes (N : Nat) (h : N ≤ 9223372036854775807) :
    getParsedInt64 [("k", .jnum (Int.ofNat N))] "k" = Int.ofNat N ∧
    getParsedInt64 [("k", .jobj [("parsed", .jnum (Int.ofNat N))])] "k" =
      Int.ofNat N ∧
    getParsedInt64 [("k", .jobj [("value", .jnum (Int.ofNat N))])] "k" =
      Int.ofNat N ∧
    getParsedInt64 [("k", .jobj [("value", .jstr (natDecString N))])] "k" =
      Int.ofNat N ∧
    ZFSProperty.GetInt64 ⟨.num (Int.ofNat N)⟩ = Int.ofNat N ∧
    ZFSProperty.GetInt64 ⟨.str (natDecString N)⟩ = 0 := by
  refine ⟨rfl, rfl, rfl, ?_, rfl, rfl⟩
  show (parseInt64Model (natDecString N)).getD 0 = Int.ofNat N
  rw [parseInt64Model_natDecString N h]
  rfl

/-- C3 witness: the four shapes at the concrete values of
`TestGetParsedInt64` (and the string-shape outcome of
`TestZFSProperty_GetInt64`). -/
theorem numeric_decoder_shapes_witness :
    getParsedInt64 [("k", .jobj [("value", .jstr (natDecString 22222))])]
      "k" = Int.ofNat 22222 ∧
    ZFSProperty.GetInt64 ⟨.str (natDecString 22222)⟩ = 0 :=
  ⟨(numeric_decoder_shapes 22222 (by norm_num)).2.2.2.1,
   (numeric_decoder_shapes 22222 (by norm_num)).2.2.2.2.2⟩

/-- Both NFS constituents exist on the appliance. -/
def nfsAllPresent (r : ProvResult) (ids : NFSIds) : Prop :=
  ids.dataset ∈ r.appliance.datasets ∧ ids.shareId ∈ r.appliance.shares

/-- Neither NFS constituent exists on the appliance. -/
def nfsNonePresent (r : ProvResult) (ids : NFSIds) : Prop :=
  ids.dataset ∉ r.appliance.datasets ∧ ids.shareId ∉ r.appliance.shares

/-- Any NFS constituent still on the appliance after a failed flow appears
in the leak log (the share is never left behind at all). -/
def nfsLeakLogged (r : ProvResult) (ids : NFSIds) : Prop :=
  (ids.dataset ∈ r.appliance.datasets → ids.dataset ∈ r.leaked) ∧
  ids.shareId ∉ r.appliance.shares

/-- All four iSCSI constituents exist on the appliance. -/
def iscsiAllPresent (r : ProvResult) (ids : ISCSIIds) : Prop :=
  ids.zvol ∈ r.appliance.datasets ∧ ids.extentId ∈ r.appliance.extents ∧
  ids.targetId ∈ r.appliance.targets ∧ ids.assocId ∈ r.appliance.assocs

/-- None of the four iSCSI constituents exists on the appliance. -/
def iscsiNonePresent (r : ProvResult) (ids : ISCSIIds) : Prop :=
  ids.zvol ∉ r.appliance.datasets ∧ ids.extentId ∉ r.appliance.extents ∧
  ids.targetId ∉ r.appliance.targets ∧ ids.assocId ∉ r.appliance.assocs

/-- Any iSCSI constituent still on the appliance after a failed flow appears
in the leak log (the association is never left behind at all). -/
def iscsiLeakLogged (r : ProvResult) (ids : ISCSIIds) : Prop :=
  (ids.zvol ∈ r.appliance.datasets → ids.zvol ∈ r.leaked) ∧
  (ids.extentId ∈ r.appliance.extents →
    extentDesc ids.extentId ∈ r.leaked) ∧
  (ids.targetId ∈ r.appliance.targets →
    targetDesc ids.targetId ∈ r.leaked) ∧
  ids.assocId ∉ r.appliance.assocs

/-- Provision-NFS is atomic up to logged leaks: success leaves both
constituents, an error leaves none except those the leak log records, and a
clean-rollback error leaves none at all. -/
theorem provisionNFS_atomic (st : Appliance) (o : ProvNFSOracle)
    (ids : NFSIds) (hd : ids.dataset ∉ st.datasets)
    (hs : ids.shareId ∉ st.shares) :
    ((provisionNFS st o ids).handle.isSome = true →
      nfsAllPresent (provisionNFS st o ids) ids) ∧
    ((provisionNFS st o ids).handle = none →
      nfsLeakLogged (provisionNFS st o ids) ids) ∧
    ((provisionNFS st o ids).handle = none →
      (provisionNFS st o ids).leaked = [] →
      nfsNonePresent (provisionNFS st o ids) ids) := by
  rcases o with ⟨cd, cs, dd⟩
  cases cd <;> cases cs <;> cases dd <;>
    simp_all [provisionNFS, rollbackDel, Appliance.removeDataset,
      Appliance.removeShare, nfsAllPresent, nfsNonePresent, nfsLeakLogged,
      List.mem_filter]

set_option maxHeartbeats 2000000 in
/-- Provision-iSCSI is atomic up to logged leaks: success leaves all four
constituents, an error leaves none except those the leak log records, and a
clean-rollback error leaves none at all. -/
theorem provisionISCSI_atomic (st : Appliance) (o : ProvISCSIOracle)
    (ids : ISCSIIds) (hz : ids.zvol ∉ st.datasets)
    (he : ids.extentId ∉ st.extents) (ht : ids.targetId ∉ st.targets)
    (ha : ids.assocId ∉ st.assocs) :
    ((provisionISCSI st o ids).handle.isSome = true →
      iscsiAllPresent (provisionISCSI st o ids) ids) ∧
    ((provisionISCSI st o ids).handle = none →
      iscsiLeakLogged (provisionISCSI st o ids) ids) ∧
    ((provisionISCSI st o ids).handle = none →
      (provisionISCSI st o ids).leaked = [] →
      iscsiNonePresent (provisionISCSI st o ids) ids) := by
  rcases o with ⟨cz, ce, ct, ca, dt, de, dz⟩
  cases cz <;> cases ce <;> cases ct <;> cases ca <;> cases dt <;>
    cases de <;> cases dz <;>
    simp_all [provisionISCSI, rollbackDel, Appliance.removeDataset,
      Appliance.removeExtent, Appliance.removeTarget, iscsiAllPresent,
      iscsiNonePresent, iscsiLeakLogged, List.mem_filter]

/-- **C1.** If a provisioning flow (Provision-NFS or Provision-iSCSI)
returns a volume handle, all of the flow's constituent appliance entities
exist; if it returns an error, every constituent it attempted to create is
gone from the appliance except those whose rollback delete itself errored,
which are recorded in the leak log — and when the rollback ran cleanly (an
empty leak log), none of the constituents remain, so no post-state holds a
proper non-empty subset of them. -/
theorem provisioning_all_or_nothing (st : Appliance)
    (oN : ProvNFSOracle) (idsN : NFSIds) (oI : ProvISCSIOracle)
    (idsI : ISCSIIds) (hd : idsN.dataset ∉ st.datasets)
    (hs : idsN.shareId ∉ st.shares) (hz : idsI.zvol ∉ st.datasets)
    (he : idsI.extentId ∉ st.extents) (ht : idsI.targetId ∉ st.targets)
    (ha : idsI.assocId ∉ st.assocs) :
    (((provisionNFS st oN idsN).handle.isSome = true →
        nfsAllPresent (provisionNFS st oN idsN) idsN) ∧
      ((provisionNFS st oN idsN).handle = none →
        nfsLeakLogged (provisionNFS st oN idsN) idsN) ∧
      ((provisionNFS st oN idsN).handle = none →
        (provisionNFS st oN idsN).leaked = [] →
        nfsNonePresent (provisionNFS st oN idsN) idsN)) ∧
    (((provisionISCSI st oI idsI).handle.isSome = true →
        iscsiAllPresent (provisionISCSI st oI idsI) idsI) ∧
      ((provisionISCSI st oI idsI).handle = none →
        iscsiLeakLogged (provisionISCSI st oI idsI) idsI) ∧
      ((provisionISCSI st oI idsI).handle = none →
        (provisionISCSI st oI idsI).leaked = [] →
        iscsiNonePresent (provisionISCSI st oI idsI) idsI)) :=
  ⟨provisionNFS_atomic st oN idsN hd hs,
   provisionISCSI_atomic st oI idsI hz he ht ha⟩

/-- C1 witness: both flows on an empty appliance with every RPC succeeding. -/
theorem provisioning_all_or_nothing_witness :
    ((provisionNFS ⟨[], [], [], [], []⟩ ⟨true, true, .ok⟩
        ⟨"tank/k8s/vol", 7⟩).handle.isSome = true →
      nfsAllPresent (provisionNFS ⟨[], [], [], [], []⟩ ⟨true, true, .ok⟩
        ⟨"tank/k8s/vol", 7⟩) ⟨"tank/k8s/vol", 7⟩) ∧
    ((provisionISCSI ⟨[], [], [], [], []⟩
        ⟨true, true, true, true, .ok, .ok, .ok⟩
        ⟨"tank/k8s/zv", 1, 2, 3⟩).handle.isSome = true →
      iscsiAllPresent (provisionISCSI ⟨[], [], [], [], []⟩
        ⟨true, true, true, true, .ok, .ok, .ok⟩
        ⟨"tank/k8s/zv", 1, 2, 3⟩) ⟨"tank/k8s/zv", 1, 2, 3⟩) :=
  ⟨(provisioning_all_or_nothing ⟨[], [], [], [], []⟩ ⟨true, true, .ok⟩
      ⟨"tank/k8s/vol", 7⟩ ⟨true, true, true, true, .ok, .ok, .ok⟩
      ⟨"tank/k8s/zv", 1, 2, 3⟩ (by simp) (by simp) (by simp) (by simp)
      (by simp) (by simp)).1.1,
   (provisioning_all_or_nothing ⟨[], [], [], [], []⟩ ⟨true, true, .ok⟩
      ⟨"tank/k8s/vol", 7⟩ ⟨true, true, true, true, .ok, .ok, .ok⟩
      ⟨"tank/k8s/zv", 1, 2, 3⟩ (by simp) (by simp) (by simp) (by simp)
      (by simp) (by simp)).2.1⟩
